import Mathlib

/-!
Verification of the AutoMarketplace backend: a shallow embedding of the
server-side services (VIN lookup, vision-inference response handling,
image upload, in-memory record store, listing generation) together with
theorems settling the specification's claims about them.

Conventions: machine strings are Lean `String`s; JavaScript `undefined`
and `null` on an optional field are both `Option.none`; timestamps are
`Nat` milliseconds; outbound HTTP is modelled by oracle functions passed
as parameters, so that call counts and outcomes are explicit.
-/

namespace AutoMarketplace

/-- ASCII lowercasing of one character, as `String.prototype.toLowerCase`
acts on the ASCII range (all table keys compared in this development are
ASCII). -/
def lowerChar (c : Char) : Char :=
  if c.isUpper then Char.ofNat (c.toNat + 32) else c

/-- ASCII lowercasing of a string. -/
def lowerStr (s : String) : String := ⟨s.data.map lowerChar⟩

/-- JavaScript truthiness coercion `s || null` on an optional string:
`undefined`, `null` and the empty string collapse to `none`. -/
def orNullStr : Option String → Option String
  | none => none
  | some s => if s = "" then none else some s

/-- JavaScript truthiness coercion `s || undefined` on a string field:
the empty string is falsy. -/
def orUndef (s : String) : Option String :=
  if s = "" then none else some s

/-- The JavaScript whitespace class `\s` (ASCII whitespace plus the
Unicode space separators recognised by ECMAScript). -/
def jsWhitespace (c : Char) : Bool :=
  c = ' ' || c = '\t' || c = '\n' || c = '\r' || c.toNat = 11 || c.toNat = 12 ||
  c.toNat = 0xa0 || c.toNat = 0x1680 ||
  (0x2000 ≤ c.toNat && c.toNat ≤ 0x200a) ||
  c.toNat = 0x2028 || c.toNat = 0x2029 || c.toNat = 0x202f ||
  c.toNat = 0x205f || c.toNat = 0x3000 || c.toNat = 0xfeff

/-- Digit list to number, most significant first. -/
def digitsToNat (l : List Char) : Nat :=
  l.foldl (fun a c => a * 10 + (c.toNat - 48)) 0

/-- JavaScript `parseInt(s)` in base 10: skip leading whitespace, read an
optional sign and a digit prefix; `none` models `NaN`. -/
def jsParseInt (s : String) : Option Int :=
  let cs := s.data.dropWhile jsWhitespace
  let signAndRest : Int × List Char :=
    match cs with
    | '-' :: r => (-1, r)
    | '+' :: r => (1, r)
    | r => (1, r)
  let digits := signAndRest.2.takeWhile Char.isDigit
  if digits.isEmpty then none
  else some (signAndRest.1 * (digitsToNat digits : Int))

/-! ## VIN lookup service (`server/services/vin-lookup.ts`) -/

/-- One character of the regex class `[A-HJ-NPR-Z0-9]` used by
`VinLookupService.isValidVin`: the ranges `A`–`H`, `J`–`N`, the literal
`P`, the range `R`–`Z`, and the digits. -/
def vinCharOk (c : Char) : Bool :=
  ('A' ≤ c && c ≤ 'H') || ('J' ≤ c && c ≤ 'N') || c = 'P' ||
  ('R' ≤ c && c ≤ 'Z') || ('0' ≤ c && c ≤ '9')

/-- `VinLookupService.isValidVin`: length exactly 17 and every character
in the class `[A-HJ-NPR-Z0-9]` (uppercase only — the regex has no `i`
flag). -/
def isValidVin (vin : String) : Bool :=
  vin.length == 17 && vin.data.all vinCharOk

/-- The VIN shape as the specification words it: 17 characters drawn
from the alphanumerics excluding I, O, Q case-insensitively.  Stated
from the spec's words, to be compared against `isValidVin`. -/
def vinShapeCaseInsensitive (vin : String) : Bool :=
  vin.length == 17 && vin.data.all (fun c =>
    c.isDigit || (c.isAlpha &&
      !(c = 'I' || c = 'i' || c = 'O' || c = 'o' || c = 'Q' || c = 'q')))

/-- The property names of `Object.prototype`, inherited by every object
literal: a bracket read `obj[key]` that misses the own properties walks
the prototype chain and yields the (truthy, non-string) member for these
names. -/
def objectProtoProps : List String :=
  ["constructor", "hasOwnProperty", "isPrototypeOf", "propertyIsEnumerable",
   "toLocaleString", "toString", "valueOf", "__proto__", "__defineGetter__",
   "__defineSetter__", "__lookupGetter__", "__lookupSetter__"]

/-- The value produced by a JavaScript bracket read on an object
literal with string-valued own properties: an own string, a truthy
member inherited from `Object.prototype`, or `undefined`. -/
inductive JsPropValue where
  | str (s : String)
  | protoMember (name : String)
  | undefined
deriving Repr, DecidableEq

/-- The bracket read `own[key]` including the prototype chain. -/
def jsRecordGet (own : List (String × String)) (key : String) : JsPropValue :=
  match own.lookup key with
  | some v => .str v
  | none => if objectProtoProps.contains key then .protoMember key else .undefined

/-- The decoded registry record `data.Results[0]` of the NHTSA response,
with the field names the service reads. -/
structure NhtsaRecord where
  ErrorCode : String
  ErrorText : String
  Make : String
  Model : String
  ModelYear : String
  Trim : String
  EngineHP : String
  TransmissionStyle : String
  FuelTypePrimary : String
  BodyClass : String
  DriveType : String
deriving Repr, DecidableEq

/-- Outcome of the single `fetch` to the VIN registry: a network error
(the promise rejects), a non-ok HTTP status, or a parsed JSON body whose
`Results[0]` may be absent. -/
inductive FetchOutcome where
  | netError (msg : String)
  | httpError (status : Nat)
  | ok (results : Option NhtsaRecord)
deriving Repr, DecidableEq

/-- The result shape of `VinLookupService.lookupVin`. -/
structure VinLookupResult where
  make : Option String := none
  model : Option String := none
  year : Option Int := none
  trim : Option String := none
  engine : Option String := none
  transmission : Option String := none
  fuelType : Option JsPropValue := none
  bodyStyle : Option String := none
  drivetrain : Option String := none
  success : Bool
  source : Option String := none
  error : Option String := none
deriving Repr, DecidableEq

/-- The fixed fuel-type synonym table of `VinLookupService.mapFuelType`,
in source order; the `mappings` object literal's own properties. -/
def fuelMappings : List (String × String) :=
  [("gasoline", "gasoline"), ("gas", "gasoline"), ("electric", "electric"),
   ("hybrid", "hybrid"), ("diesel", "diesel"), ("flex fuel", "gasoline"),
   ("e85", "gasoline")]

/-- `VinLookupService.mapFuelType`: `undefined` on a falsy (empty)
input, otherwise the bracket read `mappings[normalized]` on the
lowercased string — which can surface an inherited `Object.prototype`
member — followed by `|| "gasoline"` on a falsy result. -/
def mapFuelType (fuelType : String) : Option JsPropValue :=
  if fuelType = "" then none
  else
    match jsRecordGet fuelMappings (lowerStr fuelType) with
    | .str v => some (if v = "" then .str "gasoline" else .str v)
    | .protoMember n => some (.protoMember n)
    | .undefined => some (.str "gasoline")

/-- The fuel-type mapping as the claim words it: a fixed synonym table
matched case-insensitively, every string not in the table mapping to
`"gasoline"`, and no value for the empty string.  Stated from the spec's
words, to be compared against `mapFuelType`. -/
def claimFuelTable : List (String × String) :=
  [("gas", "gasoline"), ("e85", "gasoline"), ("flex fuel", "gasoline"),
   ("electric", "electric"), ("hybrid", "hybrid"), ("diesel", "diesel"),
   ("gasoline", "gasoline")]

/-- Spec-side fuel normalization; see `claimFuelTable`. -/
def specFuelMap (s : String) : Option String :=
  if s = "" then none
  else
    some ((((claimFuelTable.find? (fun kv => lowerStr kv.1 == lowerStr s)).map
      Prod.snd)).getD "gasoline")

/-- Field mapping applied by `lookupWithNHTSA` on a record whose
`ErrorCode` is `"0"`: `|| undefined` coercions on the string fields,
`parseInt(ModelYear) || undefined` for the year, `EngineHP` suffixed
with `" HP"`, and the fuel-type normalization. -/
def nhtsaSuccessResult (r : NhtsaRecord) : VinLookupResult :=
  { make := orUndef r.Make
    model := orUndef r.Model
    year := match jsParseInt r.ModelYear with
            | some y => if y = 0 then none else some y
            | none => none
    trim := orUndef r.Trim
    engine := if r.EngineHP = "" then none else some (r.EngineHP ++ " HP")
    transmission := orUndef r.TransmissionStyle
    fuelType := mapFuelType r.FuelTypePrimary
    bodyStyle := orUndef r.BodyClass
    drivetrain := orUndef r.DriveType
    success := true
    source := some "NHTSA" }

/-- `VinLookupService.lookupWithNHTSA`, the single registry call:
a thrown error (`Except.error`) on network failure or non-ok status;
otherwise the mapped result, with `success:false` when `Results[0]` is
absent or its `ErrorCode` is not `"0"`. -/
def lookupWithNHTSA (registry : String → FetchOutcome) (vin : String) :
    Except String VinLookupResult :=
  match registry vin with
  | .netError msg => .error msg
  | .httpError status => .error ("NHTSA API error: " ++ toString status)
  | .ok none =>
      .ok { success := false, error := some "VIN not found in NHTSA database" }
  | .ok (some r) =>
      if r.ErrorCode ≠ "0" then
        .ok { success := false,
              error := some ((orUndef r.ErrorText).getD "VIN not found in NHTSA database") }
      else .ok (nhtsaSuccessResult r)

/-- `VinLookupService.lookupWithCommercialAPI`: the shipped stub. -/
def lookupWithCommercialAPI (_vin : String) : VinLookupResult :=
  { success := false, error := some "Commercial VIN API not configured" }

/-- `VinLookupService.lookupVin`, paired with the number of outbound
registry calls it issues.  The registry oracle stands for the one
`fetch` inside `lookupWithNHTSA`; the commercial fallback issues no
call. -/
def lookupVin (registry : String → FetchOutcome) (apiKey vin : String) :
    VinLookupResult × Nat :=
  if isValidVin vin then
    match lookupWithNHTSA registry vin with
    | .error _ =>
        ({ success := false,
           error := some "VIN lookup failed. Please try again or enter information manually." }, 1)
    | .ok nhtsaResult =>
        if nhtsaResult.success then (nhtsaResult, 1)
        else if apiKey ≠ "" then (lookupWithCommercialAPI vin, 1)
        else ({ success := false,
                error := some "VIN lookup service unavailable. Please enter vehicle information manually." }, 1)
  else
    ({ success := false,
       error := some "Invalid VIN format. VIN must be 17 characters." }, 0)

/-! ## In-memory record store (`server/storage.ts`)

JavaScript `Map` semantics: insertion-ordered association list; `set` on
an existing key updates in place, otherwise appends; `values()` yields
insertion order. -/

/-- `Map.prototype.set`. -/
def mapSet {β : Type} : List (String × β) → String → β → List (String × β)
  | [], k, v => [(k, v)]
  | (k', v') :: rest, k, v =>
      if k' = k then (k, v) :: rest else (k', v') :: mapSet rest k v

/-- `Map.prototype.get`. -/
def mapLookup {β : Type} (m : List (String × β)) (k : String) : Option β :=
  (m.find? (fun kv => kv.1 == k)).map Prod.snd

/-- `Map.prototype.delete`, returning the shrunken map. -/
def mapDelete {β : Type} (m : List (String × β)) (k : String) : List (String × β) :=
  m.filter (fun kv => kv.1 != k)

/-- `Map.prototype.values()` as a list. -/
def mapValues {β : Type} (m : List (String × β)) : List β := m.map Prod.snd

/-- A stored Vehicle record (`shared/schema.ts` `vehicles` table shape).
Opaque JSON payloads are carried as their serialized text. -/
structure Vehicle where
  id : String
  vin : Option String
  year : Int
  make : String
  model : String
  trim : Option String
  mileage : Int
  transmission : String
  fuelType : String
  condition : String
  price : Int
  location : String
  description : String
  features : List String
  images : List String
  aiExtractedData : Option String
  createdAt : Nat
  updatedAt : Nat
deriving Repr, DecidableEq

/-- An insert payload for a Vehicle (the validated request body):
`id`/`createdAt`/`updatedAt` omitted, nullable and defaulted columns
optional. -/
structure InsertVehicle where
  vin : Option String := none
  year : Int
  make : String
  model : String
  trim : Option String := none
  mileage : Int
  transmission : String
  fuelType : String
  condition : String
  price : Int
  location : String
  description : String
  features : Option (List String) := none
  images : Option (List String) := none
  aiExtractedData : Option String := none
deriving Repr, DecidableEq

/-- A partial Vehicle update (`Partial<InsertVehicle>`): the outer
`Option` is key presence in the partial object. -/
structure VehicleUpdate where
  vin : Option (Option String) := none
  year : Option Int := none
  make : Option String := none
  model : Option String := none
  trim : Option (Option String) := none
  mileage : Option Int := none
  transmission : Option String := none
  fuelType : Option String := none
  condition : Option String := none
  price : Option Int := none
  location : Option String := none
  description : Option String := none
  features : Option (List String) := none
  images : Option (List String) := none
  aiExtractedData : Option (Option String) := none
deriving Repr, DecidableEq

/-- The `vehicleDetails` block of a generated listing payload. -/
structure VehicleDetails where
  year : Int
  make : String
  model : String
  trim : Option String
  mileage : Int
  transmission : String
  fuelType : String
  condition : String
deriving Repr, DecidableEq

/-- The structured listing payload built by `generateListingContent`. -/
structure ListingData where
  title : String
  description : String
  price : Int
  location : String
  images : List String
  features : List String
  vehicleDetails : VehicleDetails
deriving Repr, DecidableEq

/-- A stored Listing record. -/
structure Listing where
  id : String
  vehicleId : Option String
  title : String
  platform : String
  status : String
  listingData : Option ListingData
  createdAt : Nat
  updatedAt : Nat
deriving Repr, DecidableEq

/-- An insert payload for a Listing. -/
structure InsertListing where
  vehicleId : Option String := none
  title : String
  platform : String
  status : Option String := none
  listingData : Option ListingData := none
deriving Repr, DecidableEq

/-- A partial Listing update (`Partial<InsertListing>`). -/
structure ListingUpdate where
  vehicleId : Option (Option String) := none
  title : Option String := none
  platform : Option String := none
  status : Option String := none
  listingData : Option (Option ListingData) := none
deriving Repr, DecidableEq

/-- A stored AiExtraction record. -/
structure AiExtraction where
  id : String
  vehicleId : Option String
  imageUrl : String
  extractedText : Option String
  confidence : Option Int
  extractedData : Option String
  createdAt : Nat
deriving Repr, DecidableEq

/-- An insert payload for an AiExtraction. -/
structure InsertAiExtraction where
  vehicleId : Option String := none
  imageUrl : String
  extractedText : Option String := none
  confidence : Option Int := none
  extractedData : Option String := none
deriving Repr, DecidableEq

/-- `MemStorage`: the three insertion-ordered in-memory maps. -/
structure MemStorage where
  vehicles : List (String × Vehicle) := []
  listings : List (String × Listing) := []
  aiExtractions : List (String × AiExtraction) := []
deriving Repr, DecidableEq

/-- JavaScript `s || d` for an optional string field with default. -/
def jsOrDefault (s : Option String) (d : String) : String :=
  match s with
  | none => d
  | some v => if v = "" then d else v

/-- `MemStorage.getVehicle`. -/
def getVehicle (st : MemStorage) (id : String) : Option Vehicle :=
  mapLookup st.vehicles id

/-- The sort comparator of `getAllVehicles`: `b.createdAt - a.createdAt`
ascending, i.e. more recent first. -/
def vehMoreRecent (a b : Vehicle) : Bool := b.createdAt ≤ a.createdAt

/-- The sort comparator of `getAllListings`. -/
def listingMoreRecent (a b : Listing) : Bool := b.createdAt ≤ a.createdAt

/-- `MemStorage.getAllVehicles`: all values sorted by descending
creation time (stable sort, as `Array.prototype.sort`). -/
def getAllVehicles (st : MemStorage) : List Vehicle :=
  (mapValues st.vehicles).mergeSort vehMoreRecent

/-- `MemStorage.getAllListings`. -/
def getAllListings (st : MemStorage) : List Listing :=
  (mapValues st.listings).mergeSort listingMoreRecent

/-- `MemStorage.createVehicle`; the generated `randomUUID` and the
current time are explicit parameters. -/
def createVehicle (st : MemStorage) (iv : InsertVehicle) (id : String) (now : Nat) :
    Vehicle × MemStorage :=
  let v : Vehicle :=
    { id := id
      vin := iv.vin
      year := iv.year
      make := iv.make
      model := iv.model
      trim := orNullStr iv.trim
      mileage := iv.mileage
      transmission := iv.transmission
      fuelType := iv.fuelType
      condition := iv.condition
      price := iv.price
      location := iv.location
      description := iv.description
      features := iv.features.getD []
      images := iv.images.getD []
      aiExtractedData := iv.aiExtractedData
      createdAt := now
      updatedAt := now }
  (v, { st with vehicles := mapSet st.vehicles id v })

/-- The spread merge `{ ...existing, ...updateData, updatedAt: now, ... }`
of `MemStorage.updateVehicle`. -/
def mergeVehicle (existing : Vehicle) (upd : VehicleUpdate) (now : Nat) : Vehicle :=
  { id := existing.id
    vin := upd.vin.getD existing.vin
    year := upd.year.getD existing.year
    make := upd.make.getD existing.make
    model := upd.model.getD existing.model
    trim := upd.trim.getD existing.trim
    mileage := upd.mileage.getD existing.mileage
    transmission := upd.transmission.getD existing.transmission
    fuelType := upd.fuelType.getD existing.fuelType
    condition := upd.condition.getD existing.condition
    price := upd.price.getD existing.price
    location := upd.location.getD existing.location
    description := upd.description.getD existing.description
    features := upd.features.getD existing.features
    images := upd.images.getD existing.images
    aiExtractedData := upd.aiExtractedData.getD existing.aiExtractedData
    createdAt := existing.createdAt
    updatedAt := now }

/-- `MemStorage.updateVehicle`. -/
def updateVehicle (st : MemStorage) (id : String) (upd : VehicleUpdate) (now : Nat) :
    Option Vehicle × MemStorage :=
  match mapLookup st.vehicles id with
  | none => (none, st)
  | some existing =>
      let updated := mergeVehicle existing upd now
      (some updated, { st with vehicles := mapSet st.vehicles id updated })

/-- `MemStorage.deleteVehicle`. -/
def deleteVehicle (st : MemStorage) (id : String) : Bool × MemStorage :=
  ((mapLookup st.vehicles id).isSome,
   { st with vehicles := mapDelete st.vehicles id })

/-- `MemStorage.createListing`: `status` defaults to `"draft"` through
JavaScript truthiness. -/
def createListing (st : MemStorage) (il : InsertListing) (id : String) (now : Nat) :
    Listing × MemStorage :=
  let l : Listing :=
    { id := id
      vehicleId := il.vehicleId
      title := il.title
      platform := il.platform
      status := jsOrDefault il.status "draft"
      listingData := il.listingData
      createdAt := now
      updatedAt := now }
  (l, { st with listings := mapSet st.listings id l })

/-- The spread merge of `MemStorage.updateListing`. -/
def mergeListing (existing : Listing) (upd : ListingUpdate) (now : Nat) : Listing :=
  { id := existing.id
    vehicleId := upd.vehicleId.getD existing.vehicleId
    title := upd.title.getD existing.title
    platform := upd.platform.getD existing.platform
    status := upd.status.getD existing.status
    listingData := upd.listingData.getD existing.listingData
    createdAt := existing.createdAt
    updatedAt := now }

/-- `MemStorage.updateListing`. -/
def updateListing (st : MemStorage) (id : String) (upd : ListingUpdate) (now : Nat) :
    Option Listing × MemStorage :=
  match mapLookup st.listings id with
  | none => (none, st)
  | some existing =>
      let updated := mergeListing existing upd now
      (some updated, { st with listings := mapSet st.listings id updated })

/-- `MemStorage.deleteListing`. -/
def deleteListing (st : MemStorage) (id : String) : Bool × MemStorage :=
  ((mapLookup st.listings id).isSome,
   { st with listings := mapDelete st.listings id })

/-- `MemStorage.createAiExtraction`: `vehicleId` normalized through
`|| null`. -/
def createAiExtraction (st : MemStorage) (ie : InsertAiExtraction) (id : String) (now : Nat) :
    AiExtraction × MemStorage :=
  let e : AiExtraction :=
    { id := id
      vehicleId := orNullStr ie.vehicleId
      imageUrl := ie.imageUrl
      extractedText := ie.extractedText
      confidence := ie.confidence
      extractedData := ie.extractedData
      createdAt := now }
  (e, { st with aiExtractions := mapSet st.aiExtractions id e })

/-! ## Vision inference adapter (`server/services/ollama.ts`) -/

/-- Index of the first occurrence of a character. -/
def firstIdxOf (c : Char) (cs : List Char) : Option Nat :=
  cs.findIdx? (fun x => x == c)

/-- Index of the last occurrence of a character. -/
def lastIdxOf (c : Char) (cs : List Char) : Option Nat :=
  match cs.reverse.findIdx? (fun x => x == c) with
  | none => none
  | some j => some (cs.length - 1 - j)

/-- The match of the greedy regex `\x7b[\s\S]*\x7d` on the response text
(the braces written here as escapes): the span from the first opening
brace to the last closing brace, provided the latter comes strictly
after the former; otherwise no match. -/
def findJsonSpan (s : String) : Option String :=
  let cs := s.data
  match firstIdxOf '{' cs, lastIdxOf '}' cs with
  | some i, some j => if i < j then some ⟨(cs.drop i).take (j - i + 1)⟩ else none
  | some _, none => none
  | none, _ => none

/-- The separator class `[:\s]` of the fallback regexes. -/
def sepChar (c : Char) : Bool := c = ':' || jsWhitespace c

/-- The license-plate capture class `[A-Z0-9\-\s]` under the `i` flag. -/
def plateChar (c : Char) : Bool :=
  ('A' ≤ c && c ≤ 'Z') || ('a' ≤ c && c ≤ 'z') || ('0' ≤ c && c ≤ '9') ||
  c = '-' || jsWhitespace c

/-- The damage capture class `[^.\n]`. -/
def notDotNl (c : Char) : Bool := !(c = '.' || c = '\n')

/-- Backtracking split for `X+(Y+)`: try consuming `k` separator
characters for `k` from the maximal `X` run down to 1, and return the
maximal `Y` run starting right after; matches the regex engine's greedy
behaviour with backtracking. -/
def pickSplit (Y : Char → Bool) (cs : List Char) : Nat → Option (List Char)
  | 0 => none
  | k + 1 =>
      match cs.drop (k + 1) with
      | [] => pickSplit Y cs k
      | c :: rest => if Y c then some ((c :: rest).takeWhile Y) else pickSplit Y cs k

/-- Greedy match of `X+` followed by a nonempty capture `(Y+)`. -/
def greedyCapture (X Y : Char → Bool) (cs : List Char) : Option (List Char) :=
  pickSplit Y cs ((cs.takeWhile X).length)

/-- Case-insensitive ASCII prefix removal. -/
def dropCIPrefix? : List Char → List Char → Option (List Char)
  | [], rest => some rest
  | _ :: _, [] => none
  | l :: ls, c :: rest =>
      if lowerChar c = lowerChar l then dropCIPrefix? ls rest else none

/-- Leftmost match: scan the text for the first position where the
case-insensitive literal appears and the rest of the pattern succeeds
right after it. -/
def scanFor {β : Type} (lit : List Char) (tail : List Char → Option β) :
    List Char → Option β
  | [] =>
      match dropCIPrefix? lit [] with
      | some rest => tail rest
      | none => none
  | c :: cs =>
      match dropCIPrefix? lit (c :: cs) with
      | some rest =>
          match tail rest with
          | some r => some r
          | none => scanFor lit tail cs
      | none => scanFor lit tail cs

/-- JavaScript `String.prototype.trim`. -/
def jsTrim (s : String) : String :=
  ⟨((s.data.dropWhile jsWhitespace).reverse.dropWhile jsWhitespace).reverse⟩

/-- The four condition words of the interior/exterior alternation, in
source order. -/
def condWords : List String := ["excellent", "good", "fair", "poor"]

/-- Case-insensitive prefix test against an already-lowercase word. -/
def startsWithCI (w : String) (cs : List Char) : Bool :=
  (cs.take w.length).map lowerChar == w.data

/-- Separator run then one of the condition words, lowercased (the
separator characters `:`/whitespace cannot begin any of the words, so
only the maximal separator run can precede a match). -/
def matchCondAfterSep (cs : List Char) : Option String :=
  let m := (cs.takeWhile sepChar).length
  if m = 0 then none
  else condWords.find? (fun w => startsWithCI w (cs.drop m))

/-- The regex-extracted fields of `OllamaService.parseTextResponse`. -/
structure TextFields where
  licensePlate : Option String := none
  damage : Option String := none
  interior : Option String := none
  exterior : Option String := none
deriving Repr, DecidableEq

/-- `OllamaService.parseTextResponse`: the four fixed fallback
patterns applied to the raw response text. -/
def parseTextResponse (text : String) : TextFields :=
  let cs := text.data
  { licensePlate :=
      (scanFor "license plate".data (greedyCapture sepChar plateChar) cs).map
        (fun cap => jsTrim ⟨cap⟩)
    damage :=
      (scanFor "damage".data (greedyCapture sepChar notDotNl) cs).map
        (fun cap => jsTrim ⟨cap⟩)
    interior := scanFor "interior".data matchCondAfterSep cs
    exterior := scanFor "exterior".data matchCondAfterSep cs }

/-- What `analyzeVehicleImage` spreads into its result: the parsed JSON
object, the regex fallback fields, or nothing. -/
inductive ExtractedData (α : Type) where
  | parsed (a : α)
  | textFields (t : TextFields)
  | empty
deriving Repr, DecidableEq

/-- The result of `OllamaService.analyzeVehicleImage` (`confidence` is
spread after the extracted data, so it always carries the policy
value). -/
structure VisionResult (α : Type) where
  data : ExtractedData α
  confidence : Nat
  extractedText : String
  rawResponse : String
deriving Repr, DecidableEq

/-- Response handling of `OllamaService.analyzeVehicleImage` on a
successful endpoint response, with `JSON.parse` abstracted as an oracle
(`none` models a thrown parse error): look for the brace span; on a
parse success confidence 85 with the parsed fields, on a parse failure
confidence 60 with the regex fallback applied to the whole text, and
with no span the default confidence 50 and empty fields. -/
def analyzeResponseText {α : Type} (parseJson : String → Option α)
    (response : String) : VisionResult α :=
  match findJsonSpan response with
  | none => ⟨.empty, 50, response, response⟩
  | some span =>
      match parseJson span with
      | some a => ⟨.parsed a, 85, response, response⟩
      | none => ⟨.textFields (parseTextResponse response), 60, response, response⟩

/-! ## Image intake and the batch upload route (`routes.ts`,
`image-processor.ts`) -/

/-- One uploaded file as multer presents it. -/
structure UploadFile where
  originalname : String
  mimetype : String
  size : Nat
  buffer : String
deriving Repr, DecidableEq

/-- The accepted mime types. -/
def allowedImageTypes : List String :=
  ["image/jpeg", "image/jpg", "image/png", "image/webp"]

/-- `ImageProcessor.validateImageFile`: throws (`Except.error`) on a
disallowed mime type or a size above 10 MiB. -/
def validateImageFile (mimetype : String) (size : Nat) : Except String Unit :=
  if !(allowedImageTypes.contains (lowerStr mimetype)) then
    .error "Invalid file type. Only JPEG, PNG, and WEBP images are allowed."
  else if size > 10 * 1024 * 1024 then
    .error "File too large. Maximum size is 10MB."
  else .ok ()

/-- The basename part of `path.extname`'s input. -/
def basenameOf (name : String) : List Char :=
  match lastIdxOf '/' name.data with
  | none => name.data
  | some i => name.data.drop (i + 1)

/-- `path.extname`: from the last dot of the basename, empty when there
is no dot or the basename starts with its only dot. -/
def extname (name : String) : String :=
  let b := basenameOf name
  match lastIdxOf '.' b with
  | none => ""
  | some 0 => ""
  | some i => ⟨b.drop i⟩

/-- The record returned by `ImageProcessor.processUploadedImage`. -/
structure ProcessedImage where
  filename : String
  originalName : String
  size : Nat
  mimetype : String
  base64 : String
  url : String
deriving Repr, DecidableEq

/-- `ImageProcessor.processUploadedImage`: the `randomUUID` supply and
the base64 encoding are oracles; the disk write is a side effect outside
the response contract. -/
def processUploadedImage (uuid : Nat → String) (b64 : String → String)
    (idx : Nat) (f : UploadFile) : ProcessedImage :=
  let filename := uuid idx ++ extname f.originalname
  { filename := filename
    originalName := f.originalname
    size := f.buffer.length
    mimetype := f.mimetype
    base64 := b64 f.buffer
    url := "/uploads/vehicles/" ++ filename }

/-- One entry of the response's `aiExtractions` array. -/
structure ExtractionEntry (α : Type) where
  imageUrl : String
  extractedText : String
  confidence : Nat
  extractedData : VisionResult α
deriving Repr, DecidableEq

/-- The JSON response of `POST /api/images/upload`. -/
inductive UploadResponse (α : Type) where
  | badRequest (message : String)
  | ok (images : List ProcessedImage) (aiExtractions : List (ExtractionEntry α))
      (message : String)
deriving Repr, DecidableEq

/-- HTTP status carried by an upload response. -/
def uploadStatus {α : Type} : UploadResponse α → Nat
  | .badRequest _ => 400
  | .ok _ _ _ => 200

/-- The sequential per-file loop of the upload handler: validate, store,
then best-effort inference — an inference error (`analyze i = .error`)
is swallowed and only skips that file's extraction entry, while a
validation error aborts with the thrown message. -/
def processFiles {α : Type} (uuid : Nat → String) (b64 : String → String)
    (analyze : Nat → Except String (VisionResult α)) :
    Nat → List UploadFile →
      Except String (List ProcessedImage × List (ExtractionEntry α))
  | _, [] => .ok ([], [])
  | i, f :: rest =>
      match validateImageFile f.mimetype f.size with
      | .error e => .error e
      | .ok _ =>
          let p := processUploadedImage uuid b64 i f
          match analyze i with
          | .ok r =>
              match processFiles uuid b64 analyze (i + 1) rest with
              | .error e => .error e
              | .ok (imgs, exts) =>
                  .ok (p :: imgs,
                    { imageUrl := p.url, extractedText := r.extractedText,
                      confidence := r.confidence, extractedData := r } :: exts)
          | .error _ =>
              match processFiles uuid b64 analyze (i + 1) rest with
              | .error e => .error e
              | .ok (imgs, exts) => .ok (p :: imgs, exts)

/-- The `POST /api/images/upload` handler: 400 on an empty batch or a
validation error, otherwise 200 with all processed images and the
extractions that succeeded. -/
def uploadImagesHandler {α : Type} (uuid : Nat → String) (b64 : String → String)
    (analyze : Nat → Except String (VisionResult α)) (files : List UploadFile) :
    UploadResponse α :=
  if files.isEmpty then .badRequest "No images uploaded"
  else
    match processFiles uuid b64 analyze 0 files with
    | .error e => .badRequest e
    | .ok (imgs, exts) =>
        .ok imgs exts ("Successfully uploaded " ++ toString imgs.length ++ " images")

/-! ## Listing generation and the vehicle handlers (`server/routes.ts`) -/

/-- Group a reversed digit list into blocks of three. -/
def chunk3 : List Char → List (List Char)
  | [] => []
  | a :: b :: c :: rest => [a, b, c] :: chunk3 rest
  | l => [l]

/-- `Number.prototype.toLocaleString()` for an integer under the
default en-US locale: thousands separated by commas. -/
def intLocaleString (n : Int) : String :=
  let ds := (toString n.natAbs).data
  let parts := ((chunk3 ds.reverse).map List.reverse).reverse
  (if n < 0 then "-" else "") ++ ⟨List.intercalate [','] parts⟩

/-- The title template of `generateListingContent`. -/
def generateListingTitle (v : Vehicle) : String :=
  toString v.year ++ " " ++ v.make ++ " " ++ v.model ++
  (match v.trim with
   | some t => if t = "" then "" else " " ++ t
   | none => "") ++
  " - $" ++ intLocaleString v.price

/-- The description template of `generateListingContent`. -/
def generateListingDescription (v : Vehicle) : String :=
  let featuresText :=
    if v.features.length > 0 then
      "\n\nFeatures:\n• " ++ String.intercalate "\n• " v.features
    else ""
  v.description ++ featuresText ++
  "\n\n📍 Location: " ++ v.location ++
  "\n🚗 Mileage: " ++ intLocaleString v.mileage ++ " miles" ++
  "\n⚙️ Transmission: " ++ v.transmission ++
  "\n⛽ Fuel Type: " ++ v.fuelType ++
  "\n✨ Condition: " ++ v.condition ++
  "\n\nSerious inquiries only. Cash, financing, or trade considered."

/-- `generateListingContent`: pure templating over the vehicle; the
platform tag does not change the content. -/
def generateListingContent (v : Vehicle) (_platform : String) : ListingData :=
  { title := generateListingTitle v
    description := generateListingDescription v
    price := v.price
    location := v.location
    images := v.images
    features := v.features
    vehicleDetails :=
      { year := v.year, make := v.make, model := v.model, trim := v.trim,
        mileage := v.mileage, transmission := v.transmission,
        fuelType := v.fuelType, condition := v.condition } }

/-- Response of `POST /api/listings/generate`. -/
inductive GenerateListingResponse where
  | notFound
  | ok (listing : Listing)
deriving Repr, DecidableEq

/-- The `POST /api/listings/generate` handler: 404 when the vehicle is
unknown, otherwise create and return a draft listing built from the
generated content. -/
def generateListingHandler (st : MemStorage) (vehicleId platform : String)
    (id : String) (now : Nat) : GenerateListingResponse × MemStorage :=
  match getVehicle st vehicleId with
  | none => (.notFound, st)
  | some v =>
      let listingData := generateListingContent v platform
      let created := createListing st
        { vehicleId := some vehicleId, title := listingData.title,
          platform := platform, status := some "draft",
          listingData := some listingData } id now
      (.ok created.1, created.2)

/-- The `condition` enum of `vehicleFormSchema`. -/
def conditionEnum : List String := ["excellent", "good", "fair", "poor"]

/-- The `transmission` enum of `vehicleFormSchema`. -/
def transmissionEnum : List String := ["automatic", "manual", "cvt"]

/-- The `fuelType` enum of `vehicleFormSchema`. -/
def fuelTypeEnum : List String := ["gasoline", "hybrid", "electric", "diesel"]

/-- The value constraints of `vehicleFormSchema` over a well-typed body;
`currentYear` is the `new Date().getFullYear()` captured when the schema
is built. -/
def vehicleFormCheck (currentYear : Int) (b : InsertVehicle) : Bool :=
  1900 ≤ b.year && b.year ≤ currentYear + 1 &&
  0 ≤ b.mileage && b.mileage ≤ 999999 &&
  1 ≤ b.price && b.price ≤ 999999 &&
  1 ≤ b.make.length && 1 ≤ b.model.length &&
  conditionEnum.contains b.condition &&
  transmissionEnum.contains b.transmission &&
  fuelTypeEnum.contains b.fuelType &&
  1 ≤ b.location.length && 10 ≤ b.description.length

/-- Response of `POST /api/vehicles`. -/
inductive PostVehicleResponse where
  | created (vehicle : Vehicle)
  | badRequest
deriving Repr, DecidableEq

/-- The `POST /api/vehicles` handler: schema-validate, then create; a
validation failure (a thrown `ZodError`, an `Error`) maps to 400 and the
store is not touched. -/
def postVehiclesHandler (st : MemStorage) (currentYear : Int)
    (body : InsertVehicle) (id : String) (now : Nat) :
    Nat × PostVehicleResponse × MemStorage :=
  if vehicleFormCheck currentYear body then
    let created := createVehicle st body id now
    (201, .created created.1, created.2)
  else (400, .badRequest, st)

/-! ### Concrete sample data used by witnesses -/

/-- A concrete stored vehicle. -/
def sampleVehicle : Vehicle :=
  { id := "v1", vin := none, year := 2019, make := "Honda", model := "Civic",
    trim := none, mileage := 42000, transmission := "automatic",
    fuelType := "gasoline", condition := "good", price := 15000,
    location := "Austin, TX", description := "Clean title, one owner vehicle",
    features := ["Bluetooth"], images := [], aiExtractedData := none,
    createdAt := 100, updatedAt := 100 }

/-- A concrete store holding `sampleVehicle` under key "v1". -/
def sampleStore : MemStorage := { vehicles := [("v1", sampleVehicle)] }

/-- A concrete insert payload with empty trim and absent lists. -/
def sampleInsert : InsertVehicle :=
  { year := 2021, make := "Ford", model := "F-150", trim := some "",
    mileage := 30000, transmission := "automatic", fuelType := "gasoline",
    condition := "excellent", price := 35000, location := "Dallas, TX",
    description := "Well maintained truck" }

/-- Three concrete valid uploads. -/
def sampleFiles : List UploadFile :=
  [{ originalname := "a.jpg", mimetype := "image/jpeg", size := 1000, buffer := "aaa" },
   { originalname := "b.png", mimetype := "image/png", size := 2000, buffer := "bbb" },
   { originalname := "c.webp", mimetype := "image/webp", size := 3000, buffer := "ccc" }]

/-- A concrete inference oracle failing exactly on the second image. -/
def sampleAnalyze : Nat → Except String (VisionResult Unit) :=
  fun i => if i = 1 then .error "inference failed"
           else .ok ⟨.empty, 50, "text", "text"⟩

/-! ## Claim theorems: VIN service -/

/-- C1 counterexample: the lowercase string "1hgcm82633a004352" has the
claim's VIN shape (17 characters, alphanumeric excluding I/O/Q
case-insensitively), yet `lookupVin` rejects it synchronously with a
format error and issues zero outbound registry calls — the source regex
`[A-HJ-NPR-Z0-9]{17}` is uppercase-only. -/
theorem C1_counterexample_lowercase_vin :
    vinShapeCaseInsensitive "1hgcm82633a004352" = true ∧
    (lookupVin (fun _ => FetchOutcome.ok none) "" "1hgcm82633a004352").2 = 0 ∧
    (lookupVin (fun _ => FetchOutcome.ok none) "" "1hgcm82633a004352").1.success = false ∧
    (lookupVin (fun _ => FetchOutcome.ok none) "" "1hgcm82633a004352").1.error =
      some "Invalid VIN format. VIN must be 17 characters." := by
  refine ⟨by decide, by decide, by decide, by decide⟩

/-- C1 (amended): for every registry oracle and API key, an input
passing the source's uppercase-only shape check (17 characters from
`[A-HJ-NPR-Z0-9]`) makes `lookupVin` issue exactly one outbound registry
call, whatever the registry answers; every other input gets
`success:false` with the format error synchronously and zero calls. -/
theorem C1_lookupVin_call_discipline (registry : String → FetchOutcome)
    (apiKey vin : String) :
    (isValidVin vin = true → (lookupVin registry apiKey vin).2 = 1) ∧
    (isValidVin vin = false →
      (lookupVin registry apiKey vin).2 = 0 ∧
      (lookupVin registry apiKey vin).1.success = false ∧
      (lookupVin registry apiKey vin).1.error =
        some "Invalid VIN format. VIN must be 17 characters.") := by
  constructor
  · intro h
    rw [lookupVin, if_pos h]
    cases hk : lookupWithNHTSA registry vin with
    | error e => rfl
    | ok r =>
        by_cases hs : r.success
        · simp [hs]
        · by_cases ha : apiKey = "" <;> simp [hs, ha]
  · intro h
    have h' : ¬ (isValidVin vin = true) := by simp [h]
    rw [lookupVin, if_neg h']
    exact ⟨rfl, rfl, rfl⟩

/-- Witness for C1: a concrete valid-shape VIN issues one call against a
concrete registry oracle; a concrete malformed VIN issues zero. -/
theorem C1_lookupVin_call_discipline_witness :
    (lookupVin (fun _ => FetchOutcome.ok none) "" "1HGCM82633A004352").2 = 1 ∧
    (lookupVin (fun _ => FetchOutcome.ok none) "" "TOOSHORT").2 = 0 := by
  refine ⟨(C1_lookupVin_call_discipline (fun _ => FetchOutcome.ok none) "" _).1 (by decide),
    ((C1_lookupVin_call_discipline (fun _ => FetchOutcome.ok none) "" _).2 (by decide)).1⟩

/-- C2 counterexample: the non-empty string "Constructor" is not in the
synonym table, so by the claim the normalization should return
"gasoline"; the source's bracket read walks the object literal's
prototype chain and returns the truthy inherited `constructor` member of
`Object.prototype` instead of "gasoline". -/
theorem C2_counterexample_prototype_member :
    specFuelMap "Constructor" = some "gasoline" ∧
    mapFuelType "Constructor" = some (JsPropValue.protoMember "constructor") ∧
    mapFuelType "Constructor" ≠ some (JsPropValue.str "gasoline") := by
  refine ⟨by decide, by decide, by decide⟩

/-- C2 (amended): for every input whose lowercasing is not an inherited
`Object.prototype` member name, the source fuel-type normalization
agrees with the claim's description — empty input yields no value, any
other input is matched case-insensitively against the fixed synonym
table and every string not in the table yields "gasoline"; a non-empty
input whose lowercasing names an `Object.prototype` member ("constructor"
or "__proto__" being the reachable all-lowercase ones) yields that
truthy inherited member instead of "gasoline". -/
theorem C2_mapFuelType_spec_table_off_prototype (s : String) :
    (objectProtoProps.contains (lowerStr s) = false →
      mapFuelType s = (specFuelMap s).map JsPropValue.str) ∧
    (objectProtoProps.contains (lowerStr s) = true → s ≠ "" →
      mapFuelType s = some (JsPropValue.protoMember (lowerStr s))) := by
  constructor
  · intro hc
    by_cases h : s = ""
    · simp [mapFuelType, specFuelMap, h]
    · simp only [mapFuelType, specFuelMap, if_neg h]
      have g1 : lowerStr "gas" = "gas" := by decide
      have g2 : lowerStr "e85" = "e85" := by decide
      have g3 : lowerStr "flex fuel" = "flex fuel" := by decide
      have g4 : lowerStr "electric" = "electric" := by decide
      have g5 : lowerStr "hybrid" = "hybrid" := by decide
      have g6 : lowerStr "diesel" = "diesel" := by decide
      have g7 : lowerStr "gasoline" = "gasoline" := by decide
      generalize hn : lowerStr s = n at hc ⊢
      by_cases h1 : n = "gasoline"
      · subst h1; decide
      by_cases h2 : n = "gas"
      · subst h2; decide
      by_cases h3 : n = "electric"
      · subst h3; decide
      by_cases h4 : n = "hybrid"
      · subst h4; decide
      by_cases h5 : n = "diesel"
      · subst h5; decide
      by_cases h6 : n = "flex fuel"
      · subst h6; decide
      by_cases h7 : n = "e85"
      · subst h7; decide
      have b1 : (n == "gasoline") = false := beq_eq_false_iff_ne.mpr h1
      have b2 : (n == "gas") = false := beq_eq_false_iff_ne.mpr h2
      have b3 : (n == "electric") = false := beq_eq_false_iff_ne.mpr h3
      have b4 : (n == "hybrid") = false := beq_eq_false_iff_ne.mpr h4
      have b5 : (n == "diesel") = false := beq_eq_false_iff_ne.mpr h5
      have b6 : (n == "flex fuel") = false := beq_eq_false_iff_ne.mpr h6
      have b7 : (n == "e85") = false := beq_eq_false_iff_ne.mpr h7
      have c1 : ("gasoline" == n) = false := beq_eq_false_iff_ne.mpr (Ne.symm h1)
      have c2 : ("gas" == n) = false := beq_eq_false_iff_ne.mpr (Ne.symm h2)
      have c3 : ("electric" == n) = false := beq_eq_false_iff_ne.mpr (Ne.symm h3)
      have c4 : ("hybrid" == n) = false := beq_eq_false_iff_ne.mpr (Ne.symm h4)
      have c5 : ("diesel" == n) = false := beq_eq_false_iff_ne.mpr (Ne.symm h5)
      have c6 : ("flex fuel" == n) = false := beq_eq_false_iff_ne.mpr (Ne.symm h6)
      have c7 : ("e85" == n) = false := beq_eq_false_iff_ne.mpr (Ne.symm h7)
      have hm : n ∉ objectProtoProps := by simpa using hc
      simp [jsRecordGet, fuelMappings, claimFuelTable, List.lookup, List.find?,
        g1, g2, g3, g4, g5, g6, g7,
        b1, b2, b3, b4, b5, b6, b7, c1, c2, c3, c4, c5, c6, c7, hm]
  · intro hc hne
    simp only [mapFuelType, if_neg hne]
    generalize hn : lowerStr s = n at hc ⊢
    have hm : n ∈ objectProtoProps := by simpa using hc
    fin_cases hm <;> decide

/-- Witness for C2: a table synonym maps case-insensitively to
"gasoline", and the concrete input "Constructor" surfaces the inherited
prototype member. -/
theorem C2_mapFuelType_spec_table_off_prototype_witness :
    mapFuelType "E85" = some (JsPropValue.str "gasoline") ∧
    mapFuelType "Constructor" = some (JsPropValue.protoMember "constructor") := by
  constructor
  · have h := (C2_mapFuelType_spec_table_off_prototype "E85").1 (by decide)
    rw [h]; decide
  · have h := (C2_mapFuelType_spec_table_off_prototype "Constructor").2
      (by decide) (by decide)
    rw [h]; decide

/-! ## Claim theorems: record store -/

theorem mapLookup_mapSet_self {β : Type} (m : List (String × β)) (k : String) (v : β) :
    mapLookup (mapSet m k v) k = some v := by
  induction m with
  | nil => simp [mapSet, mapLookup, List.find?]
  | cons kv rest ih =>
      by_cases h : kv.1 = k
      · simp [mapSet, h, mapLookup, List.find?]
      · have hb : (kv.1 == k) = false := beq_eq_false_iff_ne.mpr h
        simpa [mapSet, h, mapLookup, List.find?, hb] using ih

/-- C6: for every store state, `getAllVehicles` and `getAllListings`
return exactly the stored records of their kind (a permutation of the
map's values) ordered by descending creation timestamp. -/
theorem C6_getAll_newest_first (st : MemStorage) :
    (getAllVehicles st).Perm (mapValues st.vehicles) ∧
    List.Sorted (fun a b : Vehicle => b.createdAt ≤ a.createdAt) (getAllVehicles st) ∧
    (getAllListings st).Perm (mapValues st.listings) ∧
    List.Sorted (fun a b : Listing => b.createdAt ≤ a.createdAt) (getAllListings st) := by
  refine ⟨List.mergeSort_perm _ _, ?_, List.mergeSort_perm _ _, ?_⟩
  · have hp := @List.sorted_mergeSort Vehicle vehMoreRecent
      (fun a b c hab hbc => by
        simp only [vehMoreRecent, decide_eq_true_eq] at hab hbc ⊢; omega)
      (fun a b => by
        simp only [vehMoreRecent, Bool.or_eq_true, decide_eq_true_eq]; omega)
      (mapValues st.vehicles)
    exact hp.imp (fun h => by
      simpa only [vehMoreRecent, decide_eq_true_eq] using h)
  · have hp := @List.sorted_mergeSort Listing listingMoreRecent
      (fun a b c hab hbc => by
        simp only [listingMoreRecent, decide_eq_true_eq] at hab hbc ⊢; omega)
      (fun a b => by
        simp only [listingMoreRecent, Bool.or_eq_true, decide_eq_true_eq]; omega)
      (mapValues st.listings)
    exact hp.imp (fun h => by
      simpa only [listingMoreRecent, decide_eq_true_eq] using h)

/-- C7: `updateVehicle` and `updateListing` merge the given partial
fields over the existing record — each absent field keeps its prior
value (`getD` collapses to the existing one), `updatedAt` is refreshed,
`id` and `createdAt` are preserved, and the merged record is what is
stored; on an unknown identifier both return `none` and leave the store
untouched. -/
theorem C7_update_merges_fields (st : MemStorage) (id : String)
    (uv : VehicleUpdate) (ul : ListingUpdate) (now : Nat) :
    (∀ v, mapLookup st.vehicles id = some v →
      ∃ u, updateVehicle st id uv now =
          (some u, { st with vehicles := mapSet st.vehicles id u }) ∧
        mapLookup (updateVehicle st id uv now).2.vehicles id = some u ∧
        u.id = v.id ∧ u.createdAt = v.createdAt ∧ u.updatedAt = now ∧
        u.vin = uv.vin.getD v.vin ∧
        u.year = uv.year.getD v.year ∧
        u.make = uv.make.getD v.make ∧
        u.model = uv.model.getD v.model ∧
        u.trim = uv.trim.getD v.trim ∧
        u.mileage = uv.mileage.getD v.mileage ∧
        u.transmission = uv.transmission.getD v.transmission ∧
        u.fuelType = uv.fuelType.getD v.fuelType ∧
        u.condition = uv.condition.getD v.condition ∧
        u.price = uv.price.getD v.price ∧
        u.location = uv.location.getD v.location ∧
        u.description = uv.description.getD v.description ∧
        u.features = uv.features.getD v.features ∧
        u.images = uv.images.getD v.images ∧
        u.aiExtractedData = uv.aiExtractedData.getD v.aiExtractedData) ∧
    (mapLookup st.vehicles id = none → updateVehicle st id uv now = (none, st)) ∧
    (∀ l, mapLookup st.listings id = some l →
      ∃ u, updateListing st id ul now =
          (some u, { st with listings := mapSet st.listings id u }) ∧
        mapLookup (updateListing st id ul now).2.listings id = some u ∧
        u.id = l.id ∧ u.createdAt = l.createdAt ∧ u.updatedAt = now ∧
        u.vehicleId = ul.vehicleId.getD l.vehicleId ∧
        u.title = ul.title.getD l.title ∧
        u.platform = ul.platform.getD l.platform ∧
        u.status = ul.status.getD l.status ∧
        u.listingData = ul.listingData.getD l.listingData) ∧
    (mapLookup st.listings id = none → updateListing st id ul now = (none, st)) := by
  refine ⟨?_, ?_, ?_, ?_⟩
  · intro v hv
    refine ⟨mergeVehicle v uv now, ?_, ?_, rfl, rfl, rfl, rfl, rfl, rfl, rfl, rfl,
      rfl, rfl, rfl, rfl, rfl, rfl, rfl, rfl, rfl, rfl⟩
    · simp [updateVehicle, hv]
    · simp [updateVehicle, hv, mapLookup_mapSet_self]
  · intro hv; simp [updateVehicle, hv]
  · intro l hl
    refine ⟨mergeListing l ul now, ?_, ?_, rfl, rfl, rfl, rfl, rfl, rfl, rfl, rfl⟩
    · simp [updateListing, hl]
    · simp [updateListing, hl, mapLookup_mapSet_self]
  · intro hl; simp [updateListing, hl]

/-- Witness for C7: on a concrete one-vehicle store, an update carrying
only a new price keeps every other field and refreshes `updatedAt`; on
an empty listings map the update reports absent and changes nothing. -/
theorem C7_update_merges_fields_witness :
    ∃ u, updateVehicle sampleStore "v1" { price := some 14500 } 200 =
        (some u, { sampleStore with
          vehicles := mapSet sampleStore.vehicles "v1" u }) ∧
      u.price = 14500 ∧ u.make = "Honda" ∧ u.updatedAt = 200 ∧ u.createdAt = 100 := by
  obtain ⟨u, h1, _h2, _h3, h4, h5, _h6, _h7, h8, _h9, _h10, _h11, _h12, _h13,
      _h14, h15, _h16, _h17, _h18, _h19, _h20⟩ :=
    (C7_update_merges_fields sampleStore "v1"
      { price := some 14500 } {} 200).1 sampleVehicle (by decide)
  refine ⟨u, h1, ?_, ?_, h5, h4⟩
  · rw [h15]; rfl
  · rw [h8]; rfl

/-- C9: deleting a Vehicle touches only the vehicles map — the listings
map and the aiExtractions map of the resulting store are unchanged, so
no Listing or AiExtraction referencing the vehicle is removed. -/
theorem C9_deleteVehicle_frame (st : MemStorage) (id : String) :
    ((deleteVehicle st id).2).listings = st.listings ∧
    ((deleteVehicle st id).2).aiExtractions = st.aiExtractions :=
  ⟨rfl, rfl⟩

/-- C10: `createVehicle` stores a record whose `trim` is null when the
given trim is absent or empty, whose `features` and `images` default to
the empty list when absent, and whose `id`, `createdAt` and `updatedAt`
are the generated ones with `createdAt = updatedAt`; the record is
retrievable under the generated id. -/
theorem C10_createVehicle_defaults (st : MemStorage) (iv : InsertVehicle)
    (id : String) (now : Nat) :
    ((iv.trim = none ∨ iv.trim = some "") → (createVehicle st iv id now).1.trim = none) ∧
    (∀ t, iv.trim = some t → t ≠ "" → (createVehicle st iv id now).1.trim = some t) ∧
    (iv.features = none → (createVehicle st iv id now).1.features = []) ∧
    (∀ fs, iv.features = some fs → (createVehicle st iv id now).1.features = fs) ∧
    (iv.images = none → (createVehicle st iv id now).1.images = []) ∧
    (∀ is, iv.images = some is → (createVehicle st iv id now).1.images = is) ∧
    (createVehicle st iv id now).1.id = id ∧
    (createVehicle st iv id now).1.createdAt = now ∧
    (createVehicle st iv id now).1.updatedAt = now ∧
    (createVehicle st iv id now).1.createdAt = (createVehicle st iv id now).1.updatedAt ∧
    mapLookup (createVehicle st iv id now).2.vehicles id =
      some (createVehicle st iv id now).1 := by
  refine ⟨?_, ?_, ?_, ?_, ?_, ?_, rfl, rfl, rfl, rfl, ?_⟩
  · rintro (h | h) <;> simp [createVehicle, orNullStr, h]
  · intro t ht hne; simp [createVehicle, orNullStr, ht, hne]
  · intro h; simp [createVehicle, h]
  · intro fs h; simp [createVehicle, h]
  · intro h; simp [createVehicle, h]
  · intro is h; simp [createVehicle, h]
  · simp [createVehicle, mapLookup_mapSet_self]

/-- Witness for C10: a concrete insert with an empty trim and absent
feature and image lists is stored with `trim = null`, empty lists and
equal timestamps. -/
theorem C10_createVehicle_defaults_witness :
    (createVehicle {} sampleInsert "id1" 500).1.trim = none ∧
    (createVehicle {} sampleInsert "id1" 500).1.features = [] ∧
    (createVehicle {} sampleInsert "id1" 500).1.createdAt =
      (createVehicle {} sampleInsert "id1" 500).1.updatedAt := by
  have h := C10_createVehicle_defaults {} sampleInsert "id1" 500
  exact ⟨h.1 (Or.inr rfl), h.2.2.1 rfl, h.2.2.2.2.2.2.2.2.2.1⟩

/-! ## Claim theorems: vision adapter, upload route, listing and vehicle routes -/

/-- C3: the confidence policy of `analyzeVehicleImage` — 85 with the
parsed fields when a brace span is found and parses, 60 with the regex
fallback fields when a span is found but parsing fails, 50 with empty
fields when no span is found. -/
theorem C3_confidence_policy {α : Type} (parseJson : String → Option α)
    (response : String) :
    (∀ span a, findJsonSpan response = some span → parseJson span = some a →
      (analyzeResponseText parseJson response).confidence = 85 ∧
      (analyzeResponseText parseJson response).data = .parsed a) ∧
    (∀ span, findJsonSpan response = some span → parseJson span = none →
      (analyzeResponseText parseJson response).confidence = 60 ∧
      (analyzeResponseText parseJson response).data =
        .textFields (parseTextResponse response)) ∧
    (findJsonSpan response = none →
      (analyzeResponseText parseJson response).confidence = 50 ∧
      (analyzeResponseText parseJson response).data = ExtractedData.empty) := by
  refine ⟨?_, ?_, ?_⟩
  · intro span a hs hp
    simp [analyzeResponseText, hs, hp]
  · intro span hs hp
    simp [analyzeResponseText, hs, hp]
  · intro hs
    simp [analyzeResponseText, hs]

/-- Witness for C3: a concrete always-succeeding parse on a braced text
gives 85, a failing parse on a braced text gives 60, and a text with no
braces gives 50. -/
theorem C3_confidence_policy_witness :
    (analyzeResponseText (fun _ : String => some 1)
      "note \x7bdamage\x7d end").confidence = 85 ∧
    (analyzeResponseText (fun _ : String => (none : Option Nat))
      "Damage: scratch \x7bx\x7d").confidence = 60 ∧
    (analyzeResponseText (fun _ : String => (none : Option Nat))
      "no braces here").confidence = 50 := by
  refine ⟨?_, ?_, ?_⟩
  · exact ((C3_confidence_policy (fun _ : String => some 1)
      "note \x7bdamage\x7d end").1 "\x7bdamage\x7d" 1 (by decide) rfl).1
  · exact ((C3_confidence_policy (fun _ : String => (none : Option Nat))
      "Damage: scratch \x7bx\x7d").2.1 "\x7bx\x7d" (by decide) rfl).1
  · exact ((C3_confidence_policy (fun _ : String => (none : Option Nat))
      "no braces here").2.2 (by decide)).1

theorem countP_eq_length_sub {α : Type} (p : α → Bool) (l : List α) :
    l.countP p = l.length - l.countP (fun a => !(p a)) := by
  induction l with
  | nil => rfl
  | cons a l ih =>
      have hle : List.countP (fun a => !(p a)) l ≤ l.length :=
        List.countP_le_length _
      rw [List.countP_cons, List.countP_cons, List.length_cons]
      by_cases h : p a = true <;> simp [h] <;> omega

theorem processFiles_ok {α : Type} (uuid : Nat → String) (b64 : String → String)
    (analyze : Nat → Except String (VisionResult α)) (files : List UploadFile) :
    ∀ i, (∀ f ∈ files, validateImageFile f.mimetype f.size = .ok ()) →
    ∃ imgs exts, processFiles uuid b64 analyze i files = .ok (imgs, exts) ∧
      imgs.length = files.length ∧
      exts.length = (List.range' i files.length).countP (fun j => (analyze j).isOk) := by
  induction files with
  | nil => intro i _; exact ⟨[], [], rfl, rfl, by simp⟩
  | cons f rest ih =>
      intro i hval
      have hf : validateImageFile f.mimetype f.size = .ok () :=
        hval f (List.mem_cons_self f rest)
      obtain ⟨imgs, exts, heq, hlen, hcount⟩ :=
        ih (i + 1) (fun g hg => hval g (List.mem_cons_of_mem _ hg))
      cases ha : analyze i with
      | ok r =>
          refine ⟨processUploadedImage uuid b64 i f :: imgs,
            { imageUrl := (processUploadedImage uuid b64 i f).url,
              extractedText := r.extractedText, confidence := r.confidence,
              extractedData := r } :: exts, ?_, ?_, ?_⟩
          · simp [processFiles, hf, ha, heq]
          · simp [hlen]
          · simp [List.range'_succ, List.countP_cons, ha, hcount, Except.isOk, Except.toBool]
      | error e =>
          refine ⟨processUploadedImage uuid b64 i f :: imgs, exts, ?_, ?_, ?_⟩
          · simp [processFiles, hf, ha, heq]
          · simp [hlen]
          · simp [List.range'_succ, List.countP_cons, ha, hcount, Except.isOk, Except.toBool]

/-- C4: for every nonempty batch of validly-typed, validly-sized files,
the upload handler answers 200 with one processed image per file and one
extraction per file whose inference call succeeded — per-image inference
failures only shrink `aiExtractions`, never the status or `images`. -/
theorem C4_batch_upload_swallows_inference_errors (α : Type) (uuid : Nat → String)
    (b64 : String → String) (analyze : Nat → Except String (VisionResult α))
    (files : List UploadFile) (hne : files ≠ [])
    (hval : ∀ f ∈ files, validateImageFile f.mimetype f.size = .ok ()) :
    ∃ imgs exts msg,
      uploadImagesHandler uuid b64 analyze files = .ok imgs exts msg ∧
      uploadStatus (uploadImagesHandler uuid b64 analyze files) = 200 ∧
      imgs.length = files.length ∧
      exts.length = files.length -
        (List.range files.length).countP (fun j => !(analyze j).isOk) := by
  obtain ⟨imgs, exts, heq, hlen, hcount⟩ :=
    processFiles_ok uuid b64 analyze files 0 hval
  have hemp : files.isEmpty = false := by
    cases files with
    | nil => exact absurd rfl hne
    | cons a l => rfl
  refine ⟨imgs, exts,
    "Successfully uploaded " ++ toString imgs.length ++ " images", ?_, ?_, hlen, ?_⟩
  · simp [uploadImagesHandler, hemp, heq]
  · simp [uploadImagesHandler, hemp, heq, uploadStatus]
  · rw [hcount, ← List.range_eq_range']
    have h2 := countP_eq_length_sub (fun j => (analyze j).isOk)
      (List.range files.length)
    simpa using h2

/-- Witness for C4: three valid uploads with the second inference call
failing yield three images and two extractions. -/
theorem C4_batch_upload_swallows_inference_errors_witness :
    ∃ imgs exts msg,
      uploadImagesHandler (fun i => "u" ++ toString i) (fun s => s)
          sampleAnalyze sampleFiles = .ok imgs exts msg ∧
      imgs.length = 3 ∧ exts.length = 2 := by
  obtain ⟨imgs, exts, msg, heq, _hst, hlen, hcount⟩ :=
    C4_batch_upload_swallows_inference_errors Unit (fun i => "u" ++ toString i)
      (fun s => s) sampleAnalyze sampleFiles (by decide)
      (by intro f hf
          simp only [sampleFiles, List.mem_cons, List.not_mem_nil, or_false] at hf
          rcases hf with rfl | rfl | rfl <;> rfl)
  refine ⟨imgs, exts, msg, heq, ?_, ?_⟩
  · rw [hlen]; rfl
  · rw [hcount]; decide

/-- C5: generating a listing for a stored vehicle with platform
"facebook" yields a listing whose title is the year, make and model
separated by single spaces, a space and the trim when the trim is
present (non-null, non-empty), then " - $" and the thousands-separated
price. -/
theorem C5_generate_listing_title (st : MemStorage) (vehicleId id : String)
    (now : Nat) (v : Vehicle) (h : getVehicle st vehicleId = some v) :
    ∃ listing st',
      generateListingHandler st vehicleId "facebook" id now = (.ok listing, st') ∧
      listing.title =
        toString v.year ++ " " ++ v.make ++ " " ++ v.model ++
        (match v.trim with
         | some t => if t = "" then "" else " " ++ t
         | none => "") ++
        " - $" ++ intLocaleString v.price := by
  unfold generateListingHandler
  rw [h]
  refine ⟨_, _, rfl, ?_⟩
  simp [createListing, generateListingContent, generateListingTitle]

/-- Witness for C5: the sample vehicle's generated facebook listing has
the exact expected title. -/
theorem C5_generate_listing_title_witness :
    ∃ listing st',
      generateListingHandler sampleStore "v1" "facebook" "L1" 300 =
        (.ok listing, st') ∧
      listing.title = "2019 Honda Civic - $15,000" := by
  obtain ⟨listing, st', heq, htitle⟩ :=
    C5_generate_listing_title sampleStore "v1" "L1" 300 sampleVehicle (by decide)
  exact ⟨listing, st', heq, by rw [htitle]; decide⟩

/-- C8: a request body failing the vehicle form schema makes
`POST /api/vehicles` answer 400 with the store untouched — no record is
created. -/
theorem C8_invalid_body_rejected (st : MemStorage) (currentYear : Int)
    (body : InsertVehicle) (id : String) (now : Nat)
    (h : vehicleFormCheck currentYear body = false) :
    postVehiclesHandler st currentYear body id now = (400, .badRequest, st) := by
  simp [postVehiclesHandler, h]

/-- Witness for C8: a concrete body with `make = ""` fails validation
and is rejected with 400, leaving the empty store empty. -/
theorem C8_invalid_body_rejected_witness :
    vehicleFormCheck 2025 { sampleInsert with make := "" } = false ∧
    postVehiclesHandler {} 2025 { sampleInsert with make := "" } "idX" 900 =
      (400, .badRequest, {}) :=
  ⟨by decide,
   C8_invalid_body_rejected {} 2025 { sampleInsert with make := "" } "idX" 900
     (by decide)⟩

end AutoMarketplace
